import Mathlib

/-!
Verification development for the Pulumi resource-provider protocol as declared
in sdk/python/lib/pulumi/runtime/proto/provider_pb2.py (generated from
provider.proto, package pulumirpc).  The message shapes, field numbers, field
type codes, labels, enum values and the service method table below are
transcribed from the descriptor data in that file.  The provider behaviour
itself (validation, diffing, lifecycle handling) is not part of the source
tree, so it is modelled from the specification where a claim needs it; such
definitions carry a doc comment starting with the words Modelled from the
spec.
-/

/- Modelled from the spec: the dynamically typed value carried by a
PropertyBag (section 9 of the spec: a closed tagged variant
Null | Bool | Number | String | List | Map).  The wire form is
google.protobuf.Struct, an external dependency of the source file.  Numbers
are modelled as rationals, into which every IEEE-754 double embeds exactly.
Lists and nested maps are given mutually with the value type. -/
mutual
inductive PBValue where
  | nullV : PBValue
  | boolV (b : Bool) : PBValue
  | numV (q : Rat) : PBValue
  | strV (s : String) : PBValue
  | listV (xs : PBList) : PBValue
  | structV (fs : PBFields) : PBValue
inductive PBList where
  | nil : PBList
  | cons (hd : PBValue) (tl : PBList) : PBList
inductive PBFields where
  | nil : PBFields
  | cons (key : String) (val : PBValue) (tl : PBFields) : PBFields
end

deriving instance DecidableEq for PBValue, PBList, PBFields

/-- Modelled from the spec: a PropertyBag is an ordered mapping from string
keys to dynamically typed values (spec section 3).  The top level is an
association list; first occurrence of a key wins on lookup. -/
abbrev PropertyBag := List (String × PBValue)

/-- Lookup of a key in an association list with string keys, first match. -/
def alookup {α : Type} (k : String) : List (String × α) → Option α
  | [] => none
  | (key, v) :: tl => if key = k then some v else alookup k tl

/-- Key list of a property bag, in order. -/
def pbKeys (bag : PropertyBag) : List String := bag.map Prod.fst

/-- Field-for-field equality of two property bags: every key resolves to the
same value (including absence) in both bags. -/
def pbEquiv (a b : PropertyBag) : Prop := ∀ k, alookup k a = alookup k b

/-- ConfigureRequest (provider_pb2.py, `_CONFIGUREREQUEST`): one repeated
field, named `variables` in the source (a reserved word here, so named
`vars`), a map entry message with string key and string value. -/
structure ConfigureRequest where
  vars : List (String × String)
deriving DecidableEq

/-- ConfigureErrorMissingKeys.MissingKey (provider_pb2.py,
`_CONFIGUREERRORMISSINGKEYS_MISSINGKEY`): string fields `name` (number 1)
and `description` (number 2). -/
structure MissingKey where
  name : String
  description : String
deriving DecidableEq

/-- ConfigureErrorMissingKeys (provider_pb2.py, `_CONFIGUREERRORMISSINGKEYS`):
one repeated message field `missingKeys` (number 1). -/
structure ConfigureErrorMissingKeys where
  missingKeys : List MissingKey
deriving DecidableEq

/-- CheckFailure (provider_pb2.py, `_CHECKFAILURE`): string fields
`property` (number 1) and `reason` (number 2). -/
structure CheckFailure where
  property : String
  reason : String
deriving DecidableEq

/-- InvokeRequest (provider_pb2.py, `_INVOKEREQUEST`): `tok` string, `args`
Struct. -/
structure InvokeRequest where
  tok : String
  args : PropertyBag
deriving DecidableEq

/-- InvokeResponse (provider_pb2.py, `_INVOKERESPONSE`): the Struct field
named `return` in the source (a reserved word here, so named `ret`) and the
repeated `failures` field. -/
structure InvokeResponse where
  ret : PropertyBag
  failures : List CheckFailure
deriving DecidableEq

/-- CheckRequest (provider_pb2.py, `_CHECKREQUEST`): `urn` string, `olds` and
`news` Structs. -/
structure CheckRequest where
  urn : String
  olds : PropertyBag
  news : PropertyBag
deriving DecidableEq

/-- CheckResponse (provider_pb2.py, `_CHECKRESPONSE`): `inputs` Struct and
repeated `failures`. -/
structure CheckResponse where
  inputs : PropertyBag
  failures : List CheckFailure
deriving DecidableEq

/-- DiffRequest (provider_pb2.py, `_DIFFREQUEST`): `id` string (number 1),
`urn` string (number 2), `olds` Struct (number 3), `news` Struct (number 4). -/
structure DiffRequest where
  id : String
  urn : String
  olds : PropertyBag
  news : PropertyBag
deriving DecidableEq

/-- DiffResponse.DiffChanges (provider_pb2.py, `_DIFFRESPONSE_DIFFCHANGES`):
enum with values DIFF_UNKNOWN = 0, DIFF_NONE = 1, DIFF_SOME = 2. -/
inductive DiffChanges where
  | DIFF_UNKNOWN : DiffChanges
  | DIFF_NONE : DiffChanges
  | DIFF_SOME : DiffChanges
deriving DecidableEq

/-- Wire number of each DiffChanges enum value, as declared in the source
enum descriptor. -/
def DiffChanges.number : DiffChanges → Nat
  | .DIFF_UNKNOWN => 0
  | .DIFF_NONE => 1
  | .DIFF_SOME => 2

/-- Decode a wire number into a DiffChanges value, per the source enum
descriptor. -/
def DiffChanges.ofNumber : Nat → Option DiffChanges
  | 0 => some .DIFF_UNKNOWN
  | 1 => some .DIFF_NONE
  | 2 => some .DIFF_SOME
  | _ => none

/-- DiffResponse (provider_pb2.py, `_DIFFRESPONSE`): repeated string
`replaces` (number 1), repeated string `stables` (number 2), bool
`deleteBeforeReplace` (number 3), enum `changes` (number 4). -/
structure DiffResponse where
  replaces : List String
  stables : List String
  deleteBeforeReplace : Bool
  changes : DiffChanges
deriving DecidableEq

/-- CreateRequest (provider_pb2.py, `_CREATEREQUEST`). -/
structure CreateRequest where
  urn : String
  properties : PropertyBag
deriving DecidableEq

/-- CreateResponse (provider_pb2.py, `_CREATERESPONSE`): `id` string and
`properties` Struct. -/
structure CreateResponse where
  id : String
  properties : PropertyBag
deriving DecidableEq

/-- ReadRequest (provider_pb2.py, `_READREQUEST`). -/
structure ReadRequest where
  id : String
  urn : String
  properties : PropertyBag
deriving DecidableEq

/-- ReadResponse (provider_pb2.py, `_READRESPONSE`): `id` string and
`properties` Struct. -/
structure ReadResponse where
  id : String
  properties : PropertyBag
deriving DecidableEq

/-- UpdateRequest (provider_pb2.py, `_UPDATEREQUEST`). -/
structure UpdateRequest where
  id : String
  urn : String
  olds : PropertyBag
  news : PropertyBag
deriving DecidableEq

/-- UpdateResponse (provider_pb2.py, `_UPDATERESPONSE`). -/
structure UpdateResponse where
  properties : PropertyBag
deriving DecidableEq

/-- DeleteRequest (provider_pb2.py, `_DELETEREQUEST`). -/
structure DeleteRequest where
  id : String
  urn : String
  properties : PropertyBag
deriving DecidableEq

/-- A protobuf field descriptor as recorded in the source: field name, field
number, wire type code (8 = bool, 9 = string, 11 = message, 14 = enum) and
label (1 = singular, 3 = repeated). -/
structure FieldDescriptor where
  fname : String
  fnumber : Nat
  ftype : Nat
  flabel : Nat
deriving DecidableEq

/-- Field descriptors of DiffRequest, transcribed from `_DIFFREQUEST` in the
source. -/
def diffRequestFields : List FieldDescriptor :=
  [⟨"id", 1, 9, 1⟩, ⟨"urn", 2, 9, 1⟩, ⟨"olds", 3, 11, 1⟩, ⟨"news", 4, 11, 1⟩]

/-- Field descriptors of DiffResponse, transcribed from `_DIFFRESPONSE` in
the source. -/
def diffResponseFields : List FieldDescriptor :=
  [⟨"replaces", 1, 9, 3⟩, ⟨"stables", 2, 9, 3⟩,
   ⟨"deleteBeforeReplace", 3, 8, 1⟩, ⟨"changes", 4, 14, 1⟩]

/-- A protobuf enum value descriptor: name and number. -/
structure EnumValueDescriptor where
  ename : String
  enumber : Nat
deriving DecidableEq

/-- Enum value descriptors of DiffResponse.DiffChanges, transcribed from
`_DIFFRESPONSE_DIFFCHANGES` in the source. -/
def diffChangesValues : List EnumValueDescriptor :=
  [⟨"DIFF_UNKNOWN", 0⟩, ⟨"DIFF_NONE", 1⟩, ⟨"DIFF_SOME", 2⟩]

/-- A protobuf service method descriptor: method name, input message type and
output message type (full names). -/
structure MethodDescriptor where
  mname : String
  inputType : String
  outputType : String
deriving DecidableEq

/-- The method table of the pulumirpc.ResourceProvider service, transcribed
from `_RESOURCEPROVIDER` in the source, in declaration order. -/
def resourceProviderMethods : List MethodDescriptor :=
  [⟨"Configure", "pulumirpc.ConfigureRequest", "google.protobuf.Empty"⟩,
   ⟨"Invoke", "pulumirpc.InvokeRequest", "pulumirpc.InvokeResponse"⟩,
   ⟨"Check", "pulumirpc.CheckRequest", "pulumirpc.CheckResponse"⟩,
   ⟨"Diff", "pulumirpc.DiffRequest", "pulumirpc.DiffResponse"⟩,
   ⟨"Create", "pulumirpc.CreateRequest", "pulumirpc.CreateResponse"⟩,
   ⟨"Read", "pulumirpc.ReadRequest", "pulumirpc.ReadResponse"⟩,
   ⟨"Update", "pulumirpc.UpdateRequest", "pulumirpc.UpdateResponse"⟩,
   ⟨"Delete", "pulumirpc.DeleteRequest", "google.protobuf.Empty"⟩,
   ⟨"GetPluginInfo", "google.protobuf.Empty", "pulumirpc.PluginInfo"⟩]

/-- A DiffResponse as it sits on the wire: proto3 singular fields may be
absent from the encoded message, so every field is optional here. -/
structure DiffResponseWire where
  replaces : Option (List String)
  stables : Option (List String)
  deleteBeforeReplace : Option Bool
  changes : Option DiffChanges
deriving DecidableEq

/-- Reading a wire DiffResponse: an absent field reads as the default
recorded in the source field descriptors of `_DIFFRESPONSE` (empty list for
the repeated fields, False for deleteBeforeReplace, enum number 0 hence
DIFF_UNKNOWN for changes), which is the proto3 unset-field rule applied to
the defaults declared in the source. -/
def resolveDiffResponse (w : DiffResponseWire) : DiffResponse :=
  { replaces := w.replaces.getD []
    stables := w.stables.getD []
    deleteBeforeReplace := w.deleteBeforeReplace.getD false
    changes := w.changes.getD DiffChanges.DIFF_UNKNOWN }

/-- Modelled from the spec: a provider configuration policy, the set of
mandatory configuration keys with their descriptions (spec section 4.1); the
provider implementation is absent from the source tree. -/
abbrev RequiredKeys := List MissingKey

/-- Modelled from the spec: the Configure operation (spec section 4.1).  It
receives the string-to-string variables mapping and either succeeds or fails
with a ConfigureErrorMissingKeys that lists every absent required key. -/
def configure (required : RequiredKeys) (req : ConfigureRequest) :
    Except ConfigureErrorMissingKeys Unit :=
  let missing := required.filter (fun r => (alookup r.name req.vars).isNone)
  if missing.isEmpty then Except.ok () else Except.error ⟨missing⟩

/-- Modelled from the spec: the diff policy of a provider for one resource
type (spec section 4.3) — which property names force replacement when
changed, which are stable, and the replacement ordering it reports. -/
structure DiffPolicy where
  replaceKeys : List String
  stableKeys : List String
  deleteBeforeReplaceFlag : Bool

/-- Modelled from the spec: the property names of `news` whose value differs
from the recorded value in `olds` (additions included). -/
def changedKeys (olds news : PropertyBag) : List String :=
  (pbKeys news).filter (fun k => decide (alookup k olds ≠ alookup k news))

/-- Modelled from the spec: the property names recorded in `olds` that are
absent from `news`. -/
def removedKeys (olds news : PropertyBag) : List String :=
  (pbKeys olds).filter (fun k => (alookup k news).isNone)

/-- Modelled from the spec: the Diff operation (spec section 4.3).  It
compares `olds` with `news`; `changes` is DIFF_NONE exactly when no key
changed value and none was removed, `replaces` is the set of changed `news`
keys the policy marks as replacement-forcing, `stables` and the ordering
flag come from the policy. -/
def specDiff (p : DiffPolicy) (req : DiffRequest) : DiffResponse :=
  { replaces := (changedKeys req.olds req.news).filter (fun k => p.replaceKeys.contains k)
    stables := p.stableKeys
    deleteBeforeReplace := p.deleteBeforeReplaceFlag
    changes :=
      if changedKeys req.olds req.news = [] ∧ removedKeys req.olds req.news = []
      then DiffChanges.DIFF_NONE else DiffChanges.DIFF_SOME }

/-- Modelled from the spec: the slice of engine state the lifecycle claims
are about — the recorded ResourceID of one resource, present only between a
successful Create and a successful Delete (spec sections 3 and 7). -/
structure EngineState where
  resourceID : Option String
deriving DecidableEq

/-- Modelled from the spec: how the engine folds the outcome of a Create
call into its recorded state (spec sections 4.4 and 7): a successful Create
records the returned id, a failed Create records nothing. -/
def applyCreateResult (s : EngineState) (r : Except String CreateResponse) : EngineState :=
  match r with
  | .ok resp => { resourceID := some resp.id }
  | .error _ => s

/-- Modelled from the spec: how the engine folds the outcome of a Delete
call into its recorded state (spec sections 4.4 and 7): a successful Delete
discards the id, a failed Delete leaves it intact. -/
def applyDeleteResult (s : EngineState) (r : Except String Unit) : EngineState :=
  match r with
  | .ok _ => { resourceID := none }
  | .error _ => s

/-- Modelled from the spec: the outcome the engine derives from a Read call
(spec sections 4.4 and 7): absence, presence with refreshed state, or a
transport-level failure. -/
inductive ReadOutcome where
  | absent : ReadOutcome
  | present (id : String) (properties : PropertyBag) : ReadOutcome
  | failed (message : String) : ReadOutcome
deriving DecidableEq

/-- Modelled from the spec: interpretation of a Read result by the engine.
A transport error is a failure; a response with an empty id is the
first-class absence result; otherwise the resource is present. -/
def interpretRead : Except String ReadResponse → ReadOutcome
  | .error m => .failed m
  | .ok r => if r.id = "" then .absent else .present r.id r.properties

/-- Modelled from the spec: the remote system state, a mapping from
ResourceID to the remote object state. -/
abbrev World := List (String × PropertyBag)

/-- Modelled from the spec: the Check operation as a state transformer over
the remote world (spec section 4.2).  A provider is characterised by its
validation function of the request alone; Check applies it and leaves the
remote world untouched. -/
def checkOp (f : CheckRequest → CheckResponse) (req : CheckRequest) (w : World) :
    CheckResponse × World :=
  (f req, w)

theorem alookup_isSome_of_mem_keys {α : Type} :
    ∀ (bag : List (String × α)) (k : String), k ∈ bag.map Prod.fst →
      (alookup k bag).isSome
  | [], _, h => by simp at h
  | (key, v) :: tl, k, h => by
      rw [List.map_cons] at h
      by_cases hk : key = k
      · simp [alookup, hk]
      · rcases List.mem_cons.mp h with h1 | h1
        · exact absurd h1.symm hk
        · simpa [alookup, hk] using alookup_isSome_of_mem_keys tl k h1

/-- C1: for every diff policy and every Diff request whose olds and news
bags are equal field-for-field, the Diff operation returns changes equal to
DIFF_NONE and an empty replaces list, whatever the id and urn are. -/
theorem diff_equal_bags_none_no_replaces (p : DiffPolicy) (req : DiffRequest)
    (h : pbEquiv req.olds req.news) :
    (specDiff p req).changes = DiffChanges.DIFF_NONE ∧ (specDiff p req).replaces = [] := by
  have hc : changedKeys req.olds req.news = [] := by
    rw [changedKeys, List.filter_eq_nil_iff]
    intro k _
    simp [h k]
  have hr : removedKeys req.olds req.news = [] := by
    rw [removedKeys, List.filter_eq_nil_iff]
    intro k hk
    have hs : (alookup k req.olds).isSome := alookup_isSome_of_mem_keys req.olds k hk
    rw [h k] at hs
    simpa [Option.isNone_iff_eq_none, ← Option.isSome_iff_ne_none] using hs
  constructor
  · simp [specDiff, hc, hr]
  · simp [specDiff, hc]

theorem diff_equal_bags_none_no_replaces_witness :
    (specDiff ⟨["name"], ["arn"], true⟩
        ⟨"b-123", "urn:bucket:1", [("name", PBValue.strV "a")], [("name", PBValue.strV "a")]⟩).changes
      = DiffChanges.DIFF_NONE
    ∧ (specDiff ⟨["name"], ["arn"], true⟩
        ⟨"b-123", "urn:bucket:1", [("name", PBValue.strV "a")], [("name", PBValue.strV "a")]⟩).replaces
      = [] :=
  diff_equal_bags_none_no_replaces ⟨["name"], ["arn"], true⟩
    ⟨"b-123", "urn:bucket:1", [("name", PBValue.strV "a")], [("name", PBValue.strV "a")]⟩
    (fun _ => rfl)

/-- C2: every property name in the replaces list returned by Diff is a key
present in the news property bag; in particular this holds of each name
whenever replaces is non-empty. -/
theorem diff_replaces_subset_news_keys (p : DiffPolicy) (req : DiffRequest) (k : String)
    (h : k ∈ (specDiff p req).replaces) : k ∈ pbKeys req.news := by
  simp only [specDiff] at h
  have h1 : k ∈ changedKeys req.olds req.news := (List.mem_filter.mp h).1
  rw [changedKeys] at h1
  exact (List.mem_filter.mp h1).1

theorem diff_replaces_subset_news_keys_witness :
    "name" ∈ pbKeys [("name", PBValue.strV "b")] :=
  diff_replaces_subset_news_keys ⟨["name"], [], true⟩
    ⟨"b-123", "urn:bucket:1", [("name", PBValue.strV "a")], [("name", PBValue.strV "b")]⟩
    "name" (by decide)

/-- C3: Configure receives a string-to-string variables mapping and either
succeeds or fails with a ConfigureErrorMissingKeys; whenever some mandatory
keys are absent from the variables, it fails with an error listing exactly
the absent required keys, each as a name and description pair — every one of
them, not only the first. -/
theorem configure_reports_all_missing (required : RequiredKeys) (req : ConfigureRequest)
    (h : required.filter (fun r => (alookup r.name req.vars).isNone) ≠ []) :
    configure required req =
      Except.error ⟨required.filter (fun r => (alookup r.name req.vars).isNone)⟩ := by
  have he : (required.filter (fun r => (alookup r.name req.vars).isNone)).isEmpty = false := by
    simpa [List.isEmpty_iff] using h
  simp [configure, he]

theorem configure_reports_all_missing_witness :
    configure [⟨"region", "aws region"⟩, ⟨"zone", "aws zone"⟩] ⟨[]⟩ =
      Except.error ⟨[⟨"region", "aws region"⟩, ⟨"zone", "aws zone"⟩]⟩ :=
  configure_reports_all_missing
    [⟨"region", "aws region"⟩, ⟨"zone", "aws zone"⟩] ⟨[]⟩ (by decide)

/-- C4: Create is atomic on failure — starting from a state with no recorded
ResourceID, a failed Create leaves no ResourceID assigned, so the engine
still sees the resource as not-existing and may retry Create; symmetrically,
a failed Delete leaves the recorded ResourceID of any state intact. -/
theorem create_failure_atomic_delete_failure_keeps_id (s : EngineState) (e e' : String)
    (h : s.resourceID = none) :
    (applyCreateResult s (Except.error e)).resourceID = none
    ∧ ∀ t : EngineState, (applyDeleteResult t (Except.error e')).resourceID = t.resourceID :=
  ⟨h, fun _ => rfl⟩

theorem create_failure_atomic_delete_failure_keeps_id_witness :
    (applyCreateResult ⟨none⟩ (Except.error "quota exceeded")).resourceID = none
    ∧ ∀ t : EngineState, (applyDeleteResult t (Except.error "timeout")).resourceID = t.resourceID :=
  create_failure_atomic_delete_failure_keeps_id ⟨none⟩ "quota exceeded" "timeout" rfl

/-- C5: a Read response carrying an empty id is interpreted as the
first-class absence outcome, never as a failure: absence is signalled inside
a successful response, not through a transport-level error. -/
theorem read_empty_id_is_absence (r : ReadResponse) (h : r.id = "") :
    interpretRead (Except.ok r) = ReadOutcome.absent
    ∧ ∀ m, interpretRead (Except.ok r) ≠ ReadOutcome.failed m := by
  constructor
  · simp [interpretRead, h]
  · intro m
    simp [interpretRead, h]

theorem read_empty_id_is_absence_witness :
    interpretRead (Except.ok (⟨"", []⟩ : ReadResponse)) = ReadOutcome.absent
    ∧ ∀ m, interpretRead (Except.ok (⟨"", []⟩ : ReadResponse)) ≠ ReadOutcome.failed m :=
  read_empty_id_is_absence ⟨"", []⟩ rfl

/-- C6: Check is deterministic and side-effect free — for every provider
validation function and every request, the response does not depend on the
remote world, so two calls with identical urn, olds and news return
identical inputs and failures, and the call leaves the remote world exactly
as it was. -/
theorem check_pure (f : CheckRequest → CheckResponse) (req : CheckRequest) (w w' : World) :
    (checkOp f req w).1 = (checkOp f req w').1 ∧ (checkOp f req w).2 = w :=
  ⟨rfl, rfl⟩

/-- C7: the ResourceProvider service exposes exactly nine methods, named
Configure, Invoke, Check, Diff, Create, Read, Update, Delete and
GetPluginInfo in that order, each with a single request message type and a
single response message type, and no others. -/
theorem resourceProvider_exactly_nine_methods :
    resourceProviderMethods.map MethodDescriptor.mname =
      ["Configure", "Invoke", "Check", "Diff", "Create", "Read", "Update", "Delete",
       "GetPluginInfo"]
    ∧ resourceProviderMethods.length = 9
    ∧ resourceProviderMethods.map (fun m => (m.inputType, m.outputType)) =
      [("pulumirpc.ConfigureRequest", "google.protobuf.Empty"),
       ("pulumirpc.InvokeRequest", "pulumirpc.InvokeResponse"),
       ("pulumirpc.CheckRequest", "pulumirpc.CheckResponse"),
       ("pulumirpc.DiffRequest", "pulumirpc.DiffResponse"),
       ("pulumirpc.CreateRequest", "pulumirpc.CreateResponse"),
       ("pulumirpc.ReadRequest", "pulumirpc.ReadResponse"),
       ("pulumirpc.UpdateRequest", "pulumirpc.UpdateResponse"),
       ("pulumirpc.DeleteRequest", "google.protobuf.Empty"),
       ("google.protobuf.Empty", "pulumirpc.PluginInfo")] := by
  refine ⟨by decide, by decide, by decide⟩

/-- C8: Diff takes id, urn, olds and news, and returns exactly four facets —
replaces as a repeated string field, stables as a repeated string field,
deleteBeforeReplace as a singular bool field and changes as a singular enum
field — and the DiffChanges enum has exactly the three values DIFF_UNKNOWN,
DIFF_NONE and DIFF_SOME, which exhaust the type. -/
theorem diff_request_response_shape :
    diffRequestFields.map FieldDescriptor.fname = ["id", "urn", "olds", "news"]
    ∧ diffResponseFields.map (fun f => (f.fname, f.ftype, f.flabel)) =
      [("replaces", 9, 3), ("stables", 9, 3), ("deleteBeforeReplace", 8, 1), ("changes", 14, 1)]
    ∧ diffChangesValues.map (fun v => (v.ename, v.enumber)) =
      [("DIFF_UNKNOWN", 0), ("DIFF_NONE", 1), ("DIFF_SOME", 2)]
    ∧ diffChangesValues.length = 3
    ∧ ∀ c : DiffChanges,
        c = DiffChanges.DIFF_UNKNOWN ∨ c = DiffChanges.DIFF_NONE ∨ c = DiffChanges.DIFF_SOME := by
  refine ⟨by decide, by decide, by decide, by decide, ?_⟩
  intro c
  cases c
  · exact Or.inl rfl
  · exact Or.inr (Or.inl rfl)
  · exact Or.inr (Or.inr rfl)

/-- C9: a DiffResponse whose changes field is not set on the wire reads as
the enum value numbered 0, DIFF_UNKNOWN, and is indistinguishable after
reading from a response that set changes to DIFF_UNKNOWN explicitly. -/
theorem changes_unset_reads_diff_unknown (w : DiffResponseWire) (h : w.changes = none) :
    (resolveDiffResponse w).changes = DiffChanges.DIFF_UNKNOWN
    ∧ DiffChanges.ofNumber 0 = some DiffChanges.DIFF_UNKNOWN
    ∧ resolveDiffResponse w =
        resolveDiffResponse { w with changes := some DiffChanges.DIFF_UNKNOWN } := by
  refine ⟨?_, rfl, ?_⟩
  · simp [resolveDiffResponse, h]
  · simp [resolveDiffResponse, h]

theorem changes_unset_reads_diff_unknown_witness :
    (resolveDiffResponse ⟨none, none, none, none⟩).changes = DiffChanges.DIFF_UNKNOWN
    ∧ DiffChanges.ofNumber 0 = some DiffChanges.DIFF_UNKNOWN
    ∧ resolveDiffResponse ⟨none, none, none, none⟩ =
        resolveDiffResponse
          { (⟨none, none, none, none⟩ : DiffResponseWire) with
              changes := some DiffChanges.DIFF_UNKNOWN } :=
  changes_unset_reads_diff_unknown ⟨none, none, none, none⟩ rfl

/-- C10: a DiffResponse whose deleteBeforeReplace field is not set on the
wire reads as false, and is indistinguishable after reading from a response
that set it to false explicitly — so omission signals the
create-before-delete ordering, and delete-before-replace must be stated
explicitly. -/
theorem delete_before_replace_unset_reads_false (w : DiffResponseWire)
    (h : w.deleteBeforeReplace = none) :
    (resolveDiffResponse w).deleteBeforeReplace = false
    ∧ resolveDiffResponse w =
        resolveDiffResponse { w with deleteBeforeReplace := some false } := by
  refine ⟨?_, ?_⟩
  · simp [resolveDiffResponse, h]
  · simp [resolveDiffResponse, h]

theorem delete_before_replace_unset_reads_false_witness :
    (resolveDiffResponse ⟨some ["name"], none, none, some DiffChanges.DIFF_SOME⟩).deleteBeforeReplace
      = false
    ∧ resolveDiffResponse ⟨some ["name"], none, none, some DiffChanges.DIFF_SOME⟩ =
        resolveDiffResponse
          { (⟨some ["name"], none, none, some DiffChanges.DIFF_SOME⟩ : DiffResponseWire) with
              deleteBeforeReplace := some false } :=
  delete_before_replace_unset_reads_false
    ⟨some ["name"], none, none, some DiffChanges.DIFF_SOME⟩ rfl
